import Mathlib

/-!
# Verification of `aiohttp_remotes/x_forwarded.py`

A shallow embedding of the `XForwardedRelaxed` and `XForwardedStrict`
middleware classes of `src/aiohttp_remotes/x_forwarded.py`, together with
theorems settling the specification claims about them.

Embedding conventions:

* The request-header multimap is an external collaborator (the aiohttp value
  `request.headers`); it is modelled from the interface of spec §6,
  restricted to the three forwarding header names the code reads:
  `getall name` returns the list of values of the separate header lines
  carrying that name (empty when the header is absent), `get name default`
  returns the first such value or the default.
* Exceptions (`TooManyHeaders` from the `exceptions` module of the repository,
  which is not part of the sources; `ValueError` from `ipaddress`;
  `IndexError`; `HTTPBadRequest` of aiohttp) are modelled as an error type,
  and fallible code returns `Except`.
* The source contains intra-class naming slips that would merely crash
  (`self._get_remote_addr` for the method defined as `get_remote_addr`,
  `self._get_forwarded_for` / `_get_forwarded_proto` / `_get_forwarded_host`
  for the inherited extractors, `self.upstreams` / `self.num_proxies` /
  `self.white_paths` for the attributes stored as `self._upstreams` /
  `self._num_proxies` / `self._white_paths`, extractor calls missing their
  `headers` argument, and `forwarded_for.split` on a comma applied to the
  one-element list of header instances instead of to its single string
  value).  Each is resolved to its unique evident referent; every other
  piece of executable semantics is embedded literally — in particular the
  un-awaited `self.raise_error()` calls (calling an `async def` without
  awaiting it discards the coroutine, so its body never runs), the
  character-length test in `get_forwarded_host`, and `get_forwarded_proto`
  returning the raw value list.
* Machine integers do not overflow here; IPv4 addresses are `Nat` values
  below `2 ^ 32` produced by the dotted-quad parser.  The `ipaddress`
  module is embedded for the IPv4 forms the code and spec exercise.
-/

namespace AiohttpRemotes

/-! ## Python exceptions -/

/-- The exceptions observable in `x_forwarded.py`: `TooManyHeaders` (from the
`exceptions` module of the repository, modelled from spec §7: it carries the
offending header name), `ValueError` raised by `ipaddress` parsing (carrying
the offending input), `IndexError` from list indexing, and
`web.HTTPBadRequest` of aiohttp. -/
inductive PyErr where
  | tooManyHeaders (header : String)
  | valueError (offending : String)
  | indexError
  | httpBadRequest
  deriving DecidableEq

/-! ## String utilities (Python `str.split`, `str.strip`) -/

/-- Python `str.split(sep)` for a one-character separator, on character
lists: splitting "a,,b" on the comma gives the three pieces "a", "", "b",
and splitting the empty string gives the one piece "". -/
def splitChar (c : Char) : List Char → List (List Char)
  | [] => [[]]
  | x :: xs =>
    let r := splitChar c xs
    if x = c then [] :: r
    else
      match r with
      | [] => [[x]]
      | y :: ys => (x :: y) :: ys

/-- Python `str.strip()`: drop leading and trailing whitespace. -/
def stripStr (s : String) : String :=
  ⟨((s.data.dropWhile Char.isWhitespace).reverse.dropWhile Char.isWhitespace).reverse⟩

/-! ## The `ipaddress` module (IPv4 forms) -/

/-- Numeric value of a decimal digit character. -/
def digitVal (c : Char) : Nat := c.toNat - 48

/-- Parse one dotted-quad component: one to three decimal digits, no leading
zero (as in `ipaddress`), value at most `255`. -/
def parseOctet : List Char → Option Nat
  | [a] => if a.isDigit then some (digitVal a) else none
  | [a, b] =>
      if a.isDigit && b.isDigit && a != '0' then some (10 * digitVal a + digitVal b)
      else none
  | [a, b, c] =>
      if a.isDigit && b.isDigit && c.isDigit && a != '0' then
        let v := 100 * digitVal a + 10 * digitVal b + digitVal c
        if v ≤ 255 then some v else none
      else none
  | _ => none

/-- `ipaddress.ip_address(s)` for the IPv4 dotted-quad form: four octets, or
`ValueError`.  The result is the 32-bit numeric value of the address. -/
def ip_address (s : String) : Except PyErr Nat :=
  match (splitChar '.' s.data).mapM parseOctet with
  | some [a, b, c, d] => .ok (((a * 256 + b) * 256 + c) * 256 + d)
  | _ => .error (.valueError s)

/-- An `ipaddress.ip_network` value: the network address and the mask
length. -/
structure IPNetwork where
  address : Nat
  maskBits : Nat
  deriving DecidableEq

/-- `ipaddress.ip_network(s)`: `"a.b.c.d/m"` or a bare address (mask `32`);
`ValueError` when the mask is malformed, exceeds `32`, or host bits are set
(`ip_network` defaults to `strict=True`). -/
def ip_network (s : String) : Except PyErr IPNetwork :=
  match splitChar '/' s.data with
  | [a] =>
      match ip_address ⟨a⟩ with
      | .ok n => .ok ⟨n, 32⟩
      | .error e => .error e
  | [a, m] =>
      match ip_address ⟨a⟩, parseOctet m with
      | .ok n, some bits =>
          if bits ≤ 32 ∧ n % 2 ^ (32 - bits) = 0 then .ok ⟨n, bits⟩
          else .error (.valueError s)
      | _, _ => .error (.valueError s)
  | _ => .error (.valueError s)

/-- `addr in network` from `ipaddress`: the high `maskBits` bits agree. -/
def inNetwork (addr : Nat) (net : IPNetwork) : Bool :=
  addr / 2 ^ (32 - net.maskBits) == net.address / 2 ^ (32 - net.maskBits)

/-- Decimal digit characters of one octet value (`0 ≤ n ≤ 255`). -/
def octChars (n : Nat) : List Char :=
  if n ≥ 100 then [Char.ofNat (48 + n / 100), Char.ofNat (48 + n / 10 % 10), Char.ofNat (48 + n % 10)]
  else if n ≥ 10 then [Char.ofNat (48 + n / 10), Char.ofNat (48 + n % 10)]
  else [Char.ofNat (48 + n)]

/-- `str(IPv4Address)`: the dotted-quad rendering of a 32-bit value. -/
def ipv4ToString (n : Nat) : String :=
  ⟨octChars (n / 2 ^ 24 % 256) ++ '.' :: octChars (n / 2 ^ 16 % 256) ++
    '.' :: octChars (n / 2 ^ 8 % 256) ++ '.' :: octChars (n % 256)⟩

/-! ## The aiohttp collaborators (modelled from spec §6) -/

/-- `aiohttp.hdrs.X_FORWARDED_FOR`. -/
def hdrs.X_FORWARDED_FOR : String := "X-Forwarded-For"

/-- `aiohttp.hdrs.X_FORWARDED_HOST`. -/
def hdrs.X_FORWARDED_HOST : String := "X-Forwarded-Host"

/-- `aiohttp.hdrs.X_FORWARDED_PROTO`. -/
def hdrs.X_FORWARDED_PROTO : String := "X-Forwarded-Proto"

/-- Modelled from the spec: the request-header multimap interface of spec §6
("get all values for header name X" / "get single combined value"),
restricted to the three forwarding header names the code reads.  Each field
lists the values of the separate header lines carrying that name, in
order; an absent header is the empty list. -/
structure Headers where
  xForwardedFor : List String
  xForwardedProto : List String
  xForwardedHost : List String
  deriving DecidableEq

/-- `headers.getall(name)`: all values carried by header lines named
`name` (spec §6; empty when the header is absent). -/
def Headers.getall (headers : Headers) (name : String) : List String :=
  if name = hdrs.X_FORWARDED_FOR then headers.xForwardedFor
  else if name = hdrs.X_FORWARDED_PROTO then headers.xForwardedProto
  else if name = hdrs.X_FORWARDED_HOST then headers.xForwardedHost
  else []

/-- `headers.get(name, default)`: first value for `name`, or the default. -/
def Headers.get (headers : Headers) (name dflt : String) : String :=
  match headers.getall name with
  | [] => dflt
  | v :: _ => v

/-- The value stored into the `overrides` dict: line 50 (and 121) stores the
raw list returned by `get_forwarded_proto`, the other keys hold strings. -/
inductive OverrideVal where
  | str (s : String)
  | strList (l : List String)
  deriving DecidableEq

/-- The `overrides` dict passed to `request.clone(**overrides)`: keys
`remote`, `scheme`, `host`, each present or absent. -/
structure Overrides where
  remote : Option OverrideVal := none
  scheme : Option OverrideVal := none
  host : Option OverrideVal := none
  deriving DecidableEq

/-- The aiohttp request as this middleware observes it: the forwarding
headers, the path, `transport.get_extra_info` for "peername" (peer host and
port), and the identity fields `remote` / `scheme` / `host` that
`request.clone` can replace. -/
structure Request where
  headers : Headers
  path : String
  peername : String × Nat
  remote : OverrideVal
  scheme : OverrideVal
  host : OverrideVal
  deriving DecidableEq

/-- `request.clone(**overrides)` (spec §6): a fresh request with the present
override keys replaced, everything else unchanged. -/
def Request.clone (request : Request) (overrides : Overrides) : Request :=
  { request with
    remote := overrides.remote.getD request.remote
    scheme := overrides.scheme.getD request.scheme
    host := overrides.host.getD request.host }

/-- The value bound to `remote_addr` in `XForwardedStrict.get_remote_addr`:
either the raw peer string `real_remote_addr` (lines 99, 101) or an
`IPv4Address` taken from the forwarded chain (line 97). -/
inductive RemoteAddr where
  | str (s : String)
  | addr (a : Nat)
  deriving DecidableEq

/-- Python `str()` applied to a `remote_addr` value (lines 46, 117). -/
def RemoteAddr.pyStr : RemoteAddr → String
  | .str s => s
  | .addr a => ipv4ToString a

/-- Python `xs[-n]` for a natural `n`: `-0` is index `0`; otherwise the
`n`-th entry from the end; `IndexError` when out of range. -/
def pyGetNegIdx (xs : List α) (n : Nat) : Except PyErr α :=
  if h0 : n = 0 then
    match xs with
    | [] => .error .indexError
    | a :: _ => .ok a
  else if h : n ≤ xs.length then .ok (xs.get ⟨xs.length - n, by omega⟩)
  else .error .indexError

/-! ## `XForwardedRelaxed` (x_forwarded.py lines 9-70) -/

/-- `XForwardedRelaxed.raise_error` (lines 11-12): its body raises
`web.HTTPBadRequest`.  Note that both call sites (lines 69 and 116) invoke
this `async def` without awaiting it, so in the embedded middleware the
call has no effect. -/
def XForwardedRelaxed.raise_error : Except PyErr Unit :=
  .error .httpBadRequest

/-- `XForwardedRelaxed.get_forwarded_for` (lines 14-27): all
`X-Forwarded-For` instances; empty header → empty chain; more than one
instance → `TooManyHeaders`; otherwise the single value is split on commas
(line 20 writes the comma split on `forwarded_for` itself, meaning the one string
value in scope), each token is stripped, empty tokens are dropped, and the
rest are parsed by `ip_address` (a malformed token raises `ValueError`). -/
def XForwardedRelaxed.get_forwarded_for (headers : Headers) : Except PyErr (List Nat) :=
  let forwarded_for := headers.getall hdrs.X_FORWARDED_FOR
  if forwarded_for = [] then .ok []
  else if forwarded_for.length > 1 then .error (.tooManyHeaders hdrs.X_FORWARDED_FOR)
  else
    let parts := (splitChar ',' (forwarded_for.headD "").data).map fun a => stripStr ⟨a⟩
    (parts.filter fun addr => addr ≠ "").mapM ip_address

/-- `XForwardedRelaxed.get_forwarded_proto` (lines 29-33): all
`X-Forwarded-Proto` instances; more than one → `TooManyHeaders`; otherwise
the raw value list is returned (not a single value). -/
def XForwardedRelaxed.get_forwarded_proto (headers : Headers) : Except PyErr (List String) :=
  let forwarded_proto := headers.getall hdrs.X_FORWARDED_PROTO
  if forwarded_proto.length > 1 then .error (.tooManyHeaders hdrs.X_FORWARDED_PROTO)
  else .ok forwarded_proto

/-- `XForwardedRelaxed.get_forwarded_host` (lines 35-39): the first
`X-Forwarded-Host` value, defaulting to the empty string; line 37 then tests
`len(forwarded_host) > 1` — the character length of that string — and
raises `TooManyHeaders` when the value has two or more characters. -/
def XForwardedRelaxed.get_forwarded_host (headers : Headers) : Except PyErr String :=
  let forwarded_host := headers.get hdrs.X_FORWARDED_HOST ""
  if forwarded_host.length > 1 then .error (.tooManyHeaders hdrs.X_FORWARDED_HOST)
  else .ok forwarded_host

/-- The `overrides` dict built by `XForwardedRelaxed.middleware_handler`
(lines 42-54): `remote` from the first chain entry when the chain is
non-empty; `scheme` from `get_forwarded_proto` — the guard
`if proto is not None` always holds since `proto` is a list, so the raw
list is always stored; `host` from `get_forwarded_host` — a string is
never `None`, so it is always stored. -/
def XForwardedRelaxed.overridesOf (headers : Headers) : Except PyErr Overrides :=
  match XForwardedRelaxed.get_forwarded_for headers with
  | .error e => .error e
  | .ok forwarded_for =>
    let o1 : Overrides :=
      match forwarded_for with
      | [] => {}
      | a :: _ => { remote := some (.str (ipv4ToString a)) }
    match XForwardedRelaxed.get_forwarded_proto headers with
    | .error e => .error e
    | .ok proto =>
      let o2 : Overrides := { o1 with scheme := some (.strList proto) }
      match XForwardedRelaxed.get_forwarded_host headers with
      | .error e => .error e
      | .ok host => .ok { o2 with host := some (.str host) }

/-- `XForwardedRelaxed.middleware_handler` (lines 41-58): build the
overrides from the request headers (the extractor calls are written
without their `headers` argument; the header multimap of the request is the
evident argument), clone the request, and invoke the next handler on the
clone. -/
def XForwardedRelaxed.middleware_handler {ρ : Type} (request : Request)
    (handler : Request → ρ) : Except PyErr ρ :=
  match XForwardedRelaxed.overridesOf request.headers with
  | .error e => .error e
  | .ok overrides => .ok (handler (request.clone overrides))

/-- The wrapper built by `XForwardedRelaxed.__call__` (lines 60-70), shared
by both classes through inheritance: run the (dynamically dispatched)
`middleware_handler`; on `TooManyHeaders` log and call `self.raise_error()`
without awaiting it — the coroutine is discarded, no exception is raised,
and the wrapper falls off its end, returning `None` (modelled as
`.ok none`).  Any other exception propagates unhandled. -/
def outerCall {ρ : Type} (inner : Request → (Request → ρ) → Except PyErr ρ)
    (request : Request) (handler : Request → ρ) : Except PyErr (Option ρ) :=
  match inner request handler with
  | .ok r => .ok (some r)
  | .error (.tooManyHeaders _) => .ok none
  | .error e => .error e

/-! ## `XForwardedStrict` (x_forwarded.py lines 73-129) -/

/-- The state stored by `XForwardedStrict.__init__` (lines 75-78) in the
attributes `_num_proxies`, `_upstreams`, `_white_paths`. -/
structure XForwardedStrict where
  num_proxies : Nat
  upstreams : List IPNetwork
  white_paths : List String
  deriving DecidableEq

/-- `XForwardedStrict.__init__` (lines 75-78): store `num_proxies` as given
— no lower bound is enforced — and parse each upstream with `ip_network`
(which can raise `ValueError`).  The Python `set(...)` of networks and of
white paths is kept as the parsed list; only membership is ever queried. -/
def XForwardedStrict.init (num_proxies : Nat) (upstreams : List String)
    (white_paths : List String) : Except PyErr XForwardedStrict :=
  match upstreams.mapM ip_network with
  | .error e => .error e
  | .ok nets => .ok ⟨num_proxies, nets, white_paths⟩

/-- `XForwardedStrict.get_remote_addr` (lines 80-104): extract the chain
(the call is written `self._get_forwarded_for`, resolving to the inherited
`get_forwarded_for`); `trusted_header` is `len(chain) >= num_proxies`; take
the peer host from the peername supplied by the transport.  When
`trusted_header` holds, parse the peer (`ValueError` propagates), scan the
upstream networks (`self.upstreams`, the `_upstreams` attribute) with the
for/break loop, and, when one matches, pick `forwarded_for[-num_proxies]`
(Python negative indexing); otherwise, and when the header claims too few
hops, the raw peer string with `trusted = False`. -/
def XForwardedStrict.get_remote_addr (self : XForwardedStrict) (request : Request) :
    Except PyErr (RemoteAddr × Bool) :=
  match XForwardedRelaxed.get_forwarded_for request.headers with
  | .error e => .error e
  | .ok forwarded_for =>
    let trusted_header := decide (forwarded_for.length ≥ self.num_proxies)
    let real_remote_addr := request.peername.1
    if trusted_header then
      match ip_address real_remote_addr with
      | .error e => .error e
      | .ok r =>
        let trusted := self.upstreams.any (inNetwork r)
        if trusted then
          match pyGetNegIdx forwarded_for self.num_proxies with
          | .error e => .error e
          | .ok remote_addr => .ok (.addr remote_addr, true)
        else .ok (.str real_remote_addr, false)
    else .ok (.str real_remote_addr, false)

/-- `XForwardedStrict.middleware_handler` (lines 106-129): a request whose
path is in `white_paths` skips the whole block and reaches the handler
unmodified.  Otherwise resolve via `get_remote_addr` (written
`self._get_remote_addr`); when `trusted` is false the code logs and calls
`self.raise_error()` without awaiting it, so no exception interrupts the
flow and execution continues; the remote override is always set to
`str(remote_addr)`; `scheme` is always set to the raw proto list (a list
is never `None`) and `host` to the extracted host string (a string is
never `None`); finally the handler runs on the clone. -/
def XForwardedStrict.middleware_handler {ρ : Type} (self : XForwardedStrict)
    (request : Request) (handler : Request → ρ) : Except PyErr ρ :=
  if request.path ∈ self.white_paths then .ok (handler request)
  else
    match self.get_remote_addr request with
    | .error e => .error e
    | .ok ra =>
      let o1 : Overrides := { remote := some (.str ra.1.pyStr) }
      match XForwardedRelaxed.get_forwarded_proto request.headers with
      | .error e => .error e
      | .ok proto =>
        let o2 : Overrides := { o1 with scheme := some (.strList proto) }
        match XForwardedRelaxed.get_forwarded_host request.headers with
        | .error e => .error e
        | .ok host => .ok (handler (request.clone { o2 with host := some (.str host) }))

end AiohttpRemotes

open AiohttpRemotes

/-! ## Concrete fixtures for witnesses and counterexamples

Numeric addresses: `10.0.0.0 = 167772160`, `10.1.2.3 = 167838211`,
`203.0.113.5 = 3405803781`, `203.0.113.9 = 3405803785`,
`203.0.113.99 = 3405803875`, `198.51.100.7 = 3325256711`,
`192.0.2.9 = 3221225993`, `192.0.2.1 = 3221225985`. -/

/-- The trusted network `10.0.0.0/8` of the spec examples. -/
def net10 : IPNetwork := ⟨167772160, 8⟩

/-- A baseline request: no forwarding headers, path `/`, direct peer
`10.1.2.3`, pristine identity fields. -/
def baseReq : Request :=
  ⟨⟨[], [], []⟩, "/", ("10.1.2.3", 40000), .str "origRemote", .str "http", .str "origHost"⟩

/-- The strict-mode configuration of spec §8: two expected hops, trusted
upstream `10.0.0.0/8`, no exempt paths. -/
def specCfg : XForwardedStrict := ⟨2, [net10], []⟩

/-- The request of spec §8: three forwarded entries
`203.0.113.5, 198.51.100.7, 192.0.2.9` from direct peer `10.1.2.3`. -/
def specReq : Request :=
  { baseReq with headers := ⟨["203.0.113.5, 198.51.100.7, 192.0.2.9"], [], []⟩ }

/-- The spec §8 request as seen from the untrusted direct peer
`203.0.113.99`. -/
def untrustedSpecReq : Request := { specReq with peername := ("203.0.113.99", 40000) }

/-- One expected hop, trusted upstream `10.0.0.0/8`, no exempt paths. -/
def hop1Cfg : XForwardedStrict := ⟨1, [net10], []⟩

/-- A request whose forwarded chain has exactly one entry, `192.0.2.9`,
sent from the trusted direct peer `10.1.2.3`. -/
def oneEntryReq : Request := { baseReq with headers := ⟨["192.0.2.9"], [], []⟩ }

/-- A strict configuration with an empty trusted-upstream set. -/
def noUpstreamCfg : XForwardedStrict := ⟨1, [], []⟩

/-- A request carrying one forwarded entry, sent from the peer `192.0.2.1`,
which no configuration of `noUpstreamCfg` trusts. -/
def untrustedPeerReq : Request :=
  { baseReq with headers := ⟨["203.0.113.9"], [], []⟩, peername := ("192.0.2.1", 40000) }

/-- The strict state produced by `XForwardedStrict.init 0 ["10.0.0.0/8"] []`:
zero expected proxies. -/
def zeroHopCfg : XForwardedStrict := ⟨0, [net10], []⟩

/-- The relaxed-mode example of spec §8 plus an `X-Forwarded-Host` line. -/
def relaxedFullReq : Request :=
  { baseReq with headers := ⟨["203.0.113.5, 198.51.100.7"], ["https"], ["example.org"]⟩ }

/-- The relaxed-mode example of spec §8 (forwarded-for and proto only). -/
def relaxedNoHostReq : Request :=
  { baseReq with headers := ⟨["203.0.113.5, 198.51.100.7"], ["https"], []⟩ }

/-- A request whose single forwarded-for token `abc` is not an IP
address. -/
def badTokenReq : Request := { baseReq with headers := ⟨["abc"], [], []⟩ }

/-- A request carrying two separate `X-Forwarded-For` header lines. -/
def dupXffReq : Request :=
  { baseReq with headers := ⟨["203.0.113.5", "198.51.100.7"], [], []⟩ }

/-- A strict configuration whose exempt paths contain `/health`. -/
def exemptCfg : XForwardedStrict := ⟨1, [], ["/health"]⟩

/-- A request for the exempt path `/health` whose forwarding headers are
duplicated and malformed in every way at once. -/
def exemptReq : Request :=
  { baseReq with path := "/health", headers := ⟨["a", "b"], ["p1", "p2"], ["toolong"]⟩ }

/-! ## Helper lemmas shared by the claim theorems -/

theorem getall_xff (headers : Headers) :
    headers.getall hdrs.X_FORWARDED_FOR = headers.xForwardedFor := rfl

theorem getall_xfproto (headers : Headers) :
    headers.getall hdrs.X_FORWARDED_PROTO = headers.xForwardedProto := rfl

theorem getall_xfhost (headers : Headers) :
    headers.getall hdrs.X_FORWARDED_HOST = headers.xForwardedHost := rfl

/-- An absent `X-Forwarded-For` header extracts to the empty chain. -/
theorem gff_empty {headers : Headers} (h : headers.xForwardedFor = []) :
    XForwardedRelaxed.get_forwarded_for headers = .ok [] := by
  simp [XForwardedRelaxed.get_forwarded_for, getall_xff, h]

/-- Two or more `X-Forwarded-For` header lines raise `TooManyHeaders`. -/
theorem gff_two {headers : Headers} (h : 2 ≤ headers.xForwardedFor.length) :
    XForwardedRelaxed.get_forwarded_for headers =
      .error (.tooManyHeaders hdrs.X_FORWARDED_FOR) := by
  have h1 : headers.xForwardedFor ≠ [] := by
    intro he; rw [he] at h; simp at h
  simp [XForwardedRelaxed.get_forwarded_for, getall_xff, h1]
  omega

/-- A chain shorter than `num_proxies` resolves to the raw peer,
untrusted, without even parsing the peer. -/
theorem gra_short {cfg : XForwardedStrict} {request : Request} {chain : List Nat}
    (hchain : XForwardedRelaxed.get_forwarded_for request.headers = .ok chain)
    (hlt : chain.length < cfg.num_proxies) :
    cfg.get_remote_addr request = .ok (.str request.peername.1, false) := by
  simp [XForwardedStrict.get_remote_addr, hchain]
  omega

/-- A long-enough chain from a peer inside no trusted upstream resolves to
the raw peer, untrusted. -/
theorem gra_untrusted_peer {cfg : XForwardedStrict} {request : Request}
    {chain : List Nat} {p : Nat}
    (hchain : XForwardedRelaxed.get_forwarded_for request.headers = .ok chain)
    (hlen : cfg.num_proxies ≤ chain.length)
    (hpeer : ip_address request.peername.1 = .ok p)
    (hup : ∀ u ∈ cfg.upstreams, inNetwork p u = false) :
    cfg.get_remote_addr request = .ok (.str request.peername.1, false) := by
  have hany : cfg.upstreams.any (inNetwork p) = false := by
    simp [List.any_eq_false]
    exact fun u hu => by simpa using hup u hu
  simp [XForwardedStrict.get_remote_addr, hchain, hpeer, hany, hlen]

/-- A long-enough chain from a trusted peer resolves, with at least one
expected hop, to the entry `num_proxies` positions from the end. -/
theorem gra_trusted {cfg : XForwardedStrict} {request : Request}
    {chain : List Nat} {p : Nat}
    (hchain : XForwardedRelaxed.get_forwarded_for request.headers = .ok chain)
    (hn : 1 ≤ cfg.num_proxies)
    (hlen : cfg.num_proxies ≤ chain.length)
    (hpeer : ip_address request.peername.1 = .ok p)
    (hup : ∃ u ∈ cfg.upstreams, inNetwork p u = true) :
    cfg.get_remote_addr request =
      .ok (.addr (chain.get ⟨chain.length - cfg.num_proxies, by omega⟩), true) := by
  have hany : cfg.upstreams.any (inNetwork p) = true := by
    simp [List.any_eq_true]
    obtain ⟨u, hu, hin⟩ := hup
    exact ⟨u, hu, by simpa using hin⟩
  have hne : cfg.num_proxies ≠ 0 := by omega
  simp [XForwardedStrict.get_remote_addr, hchain, hpeer, hany, hlen, pyGetNegIdx, hne]

/-- With zero configured proxies and a trusted peer, a non-empty chain
resolves to its head — the client-supplied entry. -/
theorem gra_zero_cons {cfg : XForwardedStrict} {request : Request}
    {a : Nat} {rest : List Nat} {p : Nat}
    (h0 : cfg.num_proxies = 0)
    (hchain : XForwardedRelaxed.get_forwarded_for request.headers = .ok (a :: rest))
    (hpeer : ip_address request.peername.1 = .ok p)
    (hup : ∃ u ∈ cfg.upstreams, inNetwork p u = true) :
    cfg.get_remote_addr request = .ok (.addr a, true) := by
  have hany : cfg.upstreams.any (inNetwork p) = true := by
    simp [List.any_eq_true]
    obtain ⟨u, hu, hin⟩ := hup
    exact ⟨u, hu, by simpa using hin⟩
  simp [XForwardedStrict.get_remote_addr, hchain, hpeer, hany, h0, pyGetNegIdx]

/-- With zero configured proxies and a trusted peer, an empty chain makes
the trusted branch index out of range. -/
theorem gra_zero_nil {cfg : XForwardedStrict} {request : Request} {p : Nat}
    (h0 : cfg.num_proxies = 0)
    (hchain : XForwardedRelaxed.get_forwarded_for request.headers = .ok [])
    (hpeer : ip_address request.peername.1 = .ok p)
    (hup : ∃ u ∈ cfg.upstreams, inNetwork p u = true) :
    cfg.get_remote_addr request = .error .indexError := by
  have hany : cfg.upstreams.any (inNetwork p) = true := by
    simp [List.any_eq_true]
    obtain ⟨u, hu, hin⟩ := hup
    exact ⟨u, hu, by simpa using hin⟩
  simp [XForwardedStrict.get_remote_addr, hchain, hpeer, hany, h0, pyGetNegIdx]

/-- An extraction failure propagates out of the relaxed middleware. -/
theorem relaxed_mw_err {ρ : Type} {request : Request} {e : PyErr}
    (handler : Request → ρ)
    (h : XForwardedRelaxed.get_forwarded_for request.headers = .error e) :
    XForwardedRelaxed.middleware_handler request handler = .error e := by
  simp [XForwardedRelaxed.middleware_handler, XForwardedRelaxed.overridesOf, h]

/-- A resolution failure propagates out of the strict middleware on
non-exempt paths. -/
theorem strict_mw_err {ρ : Type} {cfg : XForwardedStrict} {request : Request}
    {e : PyErr} (handler : Request → ρ)
    (hpath : request.path ∉ cfg.white_paths)
    (h : cfg.get_remote_addr request = .error e) :
    cfg.middleware_handler request handler = .error e := by
  simp [XForwardedStrict.middleware_handler, hpath, h]

/-- An extraction failure propagates out of `get_remote_addr`. -/
theorem gra_err_of_gff_err {cfg : XForwardedStrict} {request : Request} {e : PyErr}
    (h : XForwardedRelaxed.get_forwarded_for request.headers = .error e) :
    cfg.get_remote_addr request = .error e := by
  simp [XForwardedStrict.get_remote_addr, h]

/-! ## Claim theorems -/

/-- Claim C1, counterexample: the claim adds that the selected address is
"never the chain first element", but with `expectedProxyHops = 1` (the
default), the one-entry chain `192.0.2.9`, and the trusted direct peer
`10.1.2.3` inside `10.0.0.0/8` — a request satisfying every premise of the
claim (chain length `1 ≥ 1`) — strict resolution is trusted and selects
exactly the first (and only) chain entry `192.0.2.9 = 3221225993`. -/
theorem c1_counterexample :
    XForwardedRelaxed.get_forwarded_for oneEntryReq.headers = .ok [3221225993] ∧
    hop1Cfg.num_proxies ≤ ([3221225993] : List Nat).length ∧
    ip_address oneEntryReq.peername.1 = .ok 167838211 ∧
    inNetwork 167838211 net10 = true ∧
    hop1Cfg.get_remote_addr oneEntryReq = .ok (.addr 3221225993, true) ∧
    ([3221225993] : List Nat).headD 0 = 3221225993 :=
  ⟨rfl, by decide, rfl, by decide, rfl, rfl⟩

/-- Claim C1, amended: in strict mode, for every request whose forwarded
chain has length at least `expectedProxyHops ≥ 1` and whose direct peer
parses and lies inside some trusted upstream network, resolution yields
`trusted = true` and the remote address equal to
`chain[hopCount - expectedProxyHops]`, the entry exactly
`expectedProxyHops` positions from the end of the chain; this is the first
chain element exactly when `hopCount = expectedProxyHops`, and never when
the chain is strictly longer. -/
theorem c1_amended {cfg : XForwardedStrict} {request : Request} {chain : List Nat} {p : Nat}
    (hchain : XForwardedRelaxed.get_forwarded_for request.headers = .ok chain)
    (hn : 1 ≤ cfg.num_proxies)
    (hlen : cfg.num_proxies ≤ chain.length)
    (hpeer : ip_address request.peername.1 = .ok p)
    (hup : ∃ u ∈ cfg.upstreams, inNetwork p u = true) :
    cfg.get_remote_addr request =
      .ok (.addr (chain.get ⟨chain.length - cfg.num_proxies, by omega⟩), true) ∧
    (cfg.num_proxies < chain.length → chain.length - cfg.num_proxies ≠ 0) :=
  ⟨gra_trusted hchain hn hlen hpeer hup, by omega⟩

/-- Claim C1, witness: the worked example of spec §8 — two expected hops,
upstream `10.0.0.0/8`, peer `10.1.2.3`, chain
`203.0.113.5, 198.51.100.7, 192.0.2.9` — resolves trusted to
`198.51.100.7 = 3325256711`, the entry at index `3 - 2 = 1`. -/
theorem c1_witness :
    specCfg.get_remote_addr specReq = .ok (.addr 3325256711, true) :=
  (@c1_amended specCfg specReq [3405803781, 3325256711, 3221225993] 167838211
    rfl (by decide) (by decide) rfl (by decide)).1

/-- Claim C2: in strict mode, when the forwarded chain is shorter than
`expectedProxyHops`, or long enough but with the direct peer inside no
trusted upstream network, `get_remote_addr` yields `trusted = false` and
the raw direct peer string as the remote address. -/
theorem c2_strict_fail_closed :
    (∀ (cfg : XForwardedStrict) (request : Request) (chain : List Nat),
      XForwardedRelaxed.get_forwarded_for request.headers = .ok chain →
      chain.length < cfg.num_proxies →
      cfg.get_remote_addr request = .ok (.str request.peername.1, false))
  ∧ (∀ (cfg : XForwardedStrict) (request : Request) (chain : List Nat) (p : Nat),
      XForwardedRelaxed.get_forwarded_for request.headers = .ok chain →
      cfg.num_proxies ≤ chain.length →
      ip_address request.peername.1 = .ok p →
      (∀ u ∈ cfg.upstreams, inNetwork p u = false) →
      cfg.get_remote_addr request = .ok (.str request.peername.1, false)) :=
  ⟨fun _ _ _ hchain hlt => gra_short hchain hlt,
   fun _ _ _ _ hchain hlen hpeer hup => gra_untrusted_peer hchain hlen hpeer hup⟩

/-- Claim C2, witness: the two fail-closed examples of spec §8 — a one-entry
chain against two expected hops, and the full chain from the untrusted peer
`203.0.113.99` — both resolve to the direct peer, untrusted. -/
theorem c2_witness :
    specCfg.get_remote_addr oneEntryReq = .ok (.str "10.1.2.3", false) ∧
    specCfg.get_remote_addr untrustedSpecReq = .ok (.str "203.0.113.99", false) :=
  ⟨c2_strict_fail_closed.1 specCfg oneEntryReq [3221225993] rfl (by decide),
   c2_strict_fail_closed.2 specCfg untrustedSpecReq
     [3405803781, 3325256711, 3221225993] 3405803875 rfl (by decide) rfl (by decide)⟩

/-- Claim C3, divergence: for a non-exempt request that strict mode resolves
untrusted, `raise_error` would raise `HTTPBadRequest`, but the middleware
calls it without awaiting, so the request does NOT fail: the next handler IS
invoked, on a clone carrying remote, scheme and host overrides. -/
theorem c3_untrusted_request_proceeds {ρ : Type} (handler : Request → ρ) :
    noUpstreamCfg.get_remote_addr untrustedPeerReq = .ok (.str "192.0.2.1", false) ∧
    XForwardedRelaxed.raise_error = (Except.error PyErr.httpBadRequest : Except PyErr Unit) ∧
    noUpstreamCfg.middleware_handler untrustedPeerReq handler =
      .ok (handler { untrustedPeerReq with
        remote := .str "192.0.2.1", scheme := .strList [], host := .str "" }) :=
  ⟨rfl, rfl, rfl⟩

/-- Claim C4: with zero `X-Forwarded-For` header instances, extraction
returns the empty chain without error; the relaxed overrides then carry no
remote key; and strict resolution, whenever `expectedProxyHops ≥ 1`, falls
back to the direct peer with `trusted = false`. -/
theorem c4_absent_header :
    (∀ headers : Headers, headers.xForwardedFor = [] →
      XForwardedRelaxed.get_forwarded_for headers = .ok [])
  ∧ (∀ (headers : Headers) (ov : Overrides), headers.xForwardedFor = [] →
      XForwardedRelaxed.overridesOf headers = .ok ov → ov.remote = none)
  ∧ (∀ (cfg : XForwardedStrict) (request : Request),
      request.headers.xForwardedFor = [] → 1 ≤ cfg.num_proxies →
      cfg.get_remote_addr request = .ok (.str request.peername.1, false)) := by
  refine ⟨fun headers h => gff_empty h, ?_, ?_⟩
  · intro headers ov h hov
    rw [XForwardedRelaxed.overridesOf] at hov
    rw [gff_empty h] at hov
    cases hp : XForwardedRelaxed.get_forwarded_proto headers with
    | error e => rw [hp] at hov; simp at hov
    | ok proto =>
      rw [hp] at hov
      cases hh : XForwardedRelaxed.get_forwarded_host headers with
      | error e => rw [hh] at hov; simp at hov
      | ok host =>
        rw [hh] at hov
        simp at hov
        rw [← hov]
  · intro cfg request h hn
    exact gra_short (gff_empty h) (by simpa using hn)

/-- Claim C4, witness: the headerless `baseReq` extracts to the empty chain,
its relaxed overrides carry no remote key, and strict resolution with two
expected hops falls back to the direct peer `10.1.2.3`, untrusted. -/
theorem c4_witness :
    XForwardedRelaxed.get_forwarded_for baseReq.headers = .ok [] ∧
    (⟨none, some (.strList []), some (.str "")⟩ : Overrides).remote = none ∧
    specCfg.get_remote_addr baseReq = .ok (.str "10.1.2.3", false) :=
  ⟨c4_absent_header.1 baseReq.headers rfl,
   c4_absent_header.2.1 baseReq.headers ⟨none, some (.strList []), some (.str "")⟩ rfl rfl,
   c4_absent_header.2.2 specCfg baseReq rfl (by decide)⟩

/-- Claim C5, divergence: on the relaxed-mode example of spec §8 extended
with `X-Forwarded-Host: example.org`, the middleware raises `TooManyHeaders`
(the character-length test) instead of overriding the host and proceeding;
and without the host header, the handler receives a clone whose scheme
override is the raw list of proto values, not the value `https`, and whose
host is overridden to the empty string although no host header is
present. -/
theorem c5_relaxed_divergence {ρ : Type} (handler : Request → ρ) :
    XForwardedRelaxed.middleware_handler relaxedFullReq handler =
      .error (.tooManyHeaders hdrs.X_FORWARDED_HOST) ∧
    XForwardedRelaxed.middleware_handler relaxedNoHostReq handler =
      .ok (handler { relaxedNoHostReq with
        remote := .str "203.0.113.5", scheme := .strList ["https"], host := .str "" }) :=
  ⟨rfl, rfl⟩

/-- Claim C6: two or more separate `X-Forwarded-For` header lines make
extraction — and with it relaxed resolution, and strict resolution on any
non-exempt path — fail with `TooManyHeaders` naming `X-Forwarded-For`. -/
theorem c6_too_many_xff :
    (∀ headers : Headers, 2 ≤ headers.xForwardedFor.length →
      XForwardedRelaxed.get_forwarded_for headers =
        .error (.tooManyHeaders hdrs.X_FORWARDED_FOR))
  ∧ (∀ {ρ : Type} (request : Request) (handler : Request → ρ),
      2 ≤ request.headers.xForwardedFor.length →
      XForwardedRelaxed.middleware_handler request handler =
        .error (.tooManyHeaders hdrs.X_FORWARDED_FOR))
  ∧ (∀ {ρ : Type} (cfg : XForwardedStrict) (request : Request) (handler : Request → ρ),
      2 ≤ request.headers.xForwardedFor.length →
      request.path ∉ cfg.white_paths →
      cfg.middleware_handler request handler =
        .error (.tooManyHeaders hdrs.X_FORWARDED_FOR)) :=
  ⟨fun _ h => gff_two h,
   fun _ handler h => relaxed_mw_err handler (gff_two h),
   fun _ _ handler h hpath => strict_mw_err handler hpath (gra_err_of_gff_err (gff_two h))⟩

/-- Claim C6, witness: a request with the two `X-Forwarded-For` lines
`203.0.113.5` and `198.51.100.7` fails with `TooManyHeaders` at the
extractor, in the relaxed middleware, and in the strict middleware. -/
theorem c6_witness :
    XForwardedRelaxed.get_forwarded_for dupXffReq.headers =
      .error (.tooManyHeaders hdrs.X_FORWARDED_FOR) ∧
    XForwardedRelaxed.middleware_handler dupXffReq (fun r => r) =
      .error (.tooManyHeaders hdrs.X_FORWARDED_FOR) ∧
    noUpstreamCfg.middleware_handler dupXffReq (fun r => r) =
      .error (.tooManyHeaders hdrs.X_FORWARDED_FOR) :=
  ⟨c6_too_many_xff.1 dupXffReq.headers (by decide),
   c6_too_many_xff.2.1 dupXffReq (fun r => r) (by decide),
   c6_too_many_xff.2.2 noUpstreamCfg dupXffReq (fun r => r) (by decide) (by decide)⟩

/-- Claim C7, divergence: a SINGLE `X-Forwarded-Host` line whose value
`ab` has two characters raises `TooManyHeaders` (the code measures the
length of the value string, not the number of header lines); TWO
`X-Forwarded-Host` lines with one-character values raise nothing and yield
the first value; and `get_forwarded_proto` with one instance returns the
raw singleton list, not the value itself. -/
theorem c7_extractors_divergence :
    XForwardedRelaxed.get_forwarded_host ⟨[], [], ["ab"]⟩ =
      .error (.tooManyHeaders hdrs.X_FORWARDED_HOST) ∧
    XForwardedRelaxed.get_forwarded_host ⟨[], [], ["a", "b"]⟩ = .ok "a" ∧
    XForwardedRelaxed.get_forwarded_proto ⟨[], ["https"], []⟩ = .ok ["https"] :=
  ⟨rfl, rfl, rfl⟩

/-- Claim C8, divergence: the wrapper built by `__call__` converts none of
the three fault classes into a 400-class response: an address-parse failure
(token `abc`) propagates out as an unhandled `ValueError`; a duplicated
`X-Forwarded-For` is caught but, the `raise_error` coroutine being
discarded, the wrapper returns `None` instead of an error response; and an
untrusted-origin determination in strict mode does not stop the pipeline at
all — the handler runs and its response is returned. -/
theorem c8_faults_not_converted {ρ : Type} (handler : Request → ρ) :
    outerCall XForwardedRelaxed.middleware_handler badTokenReq handler =
      .error (.valueError "abc") ∧
    outerCall XForwardedRelaxed.middleware_handler dupXffReq handler = .ok none ∧
    outerCall noUpstreamCfg.middleware_handler untrustedPeerReq handler =
      .ok (some (handler { untrustedPeerReq with
        remote := .str "192.0.2.1", scheme := .strList [], host := .str "" })) :=
  ⟨rfl, rfl, rfl⟩

/-- Claim C9: a strict-mode request whose path is exempt reaches the next
handler as the original, unmodified request value, with no error possible
and no header or trust check performed — for every configuration, every
header contents, and every handler. -/
theorem c9_exempt_path_passthrough {ρ : Type} (cfg : XForwardedStrict)
    (request : Request) (handler : Request → ρ)
    (h : request.path ∈ cfg.white_paths) :
    cfg.middleware_handler request handler = .ok (handler request) := by
  simp [XForwardedStrict.middleware_handler, h]

/-- Claim C9, witness: a request for the exempt path `/health` with
duplicated forwarded-for and proto lines and an over-long host value still
passes through unmodified. -/
theorem c9_witness :
    exemptCfg.middleware_handler exemptReq (fun r => r) = .ok exemptReq :=
  c9_exempt_path_passthrough exemptCfg exemptReq (fun r => r) (by decide)

/-- Claim C10: the constructor accepts `num_proxies = 0` (no precondition is
enforced); with that configuration and a trusted peer the hop-count test
passes for every chain, a non-empty chain resolves trusted to its FIRST
(client-supplied) entry — Python index `-0` is `0` — and the empty chain
makes the trusted-branch indexing fail with `IndexError`. -/
theorem c10_zero_proxies :
    (XForwardedStrict.init 0 ["10.0.0.0/8"] [] = .ok zeroHopCfg ∧
      zeroHopCfg.num_proxies = 0)
  ∧ (∀ (cfg : XForwardedStrict) (request : Request) (a : Nat) (rest : List Nat) (p : Nat),
      cfg.num_proxies = 0 →
      XForwardedRelaxed.get_forwarded_for request.headers = .ok (a :: rest) →
      ip_address request.peername.1 = .ok p →
      (∃ u ∈ cfg.upstreams, inNetwork p u = true) →
      cfg.get_remote_addr request = .ok (.addr a, true))
  ∧ (∀ (cfg : XForwardedStrict) (request : Request) (p : Nat),
      cfg.num_proxies = 0 →
      XForwardedRelaxed.get_forwarded_for request.headers = .ok [] →
      ip_address request.peername.1 = .ok p →
      (∃ u ∈ cfg.upstreams, inNetwork p u = true) →
      cfg.get_remote_addr request = .error .indexError) :=
  ⟨⟨rfl, rfl⟩,
   fun _ _ _ _ _ h0 hchain hpeer hup => gra_zero_cons h0 hchain hpeer hup,
   fun _ _ _ h0 hchain hpeer hup => gra_zero_nil h0 hchain hpeer hup⟩

/-- Claim C10, witness: with zero configured proxies, upstream
`10.0.0.0/8`, and trusted peer `10.1.2.3`, the one-entry chain `192.0.2.9`
resolves trusted to that client-supplied entry, and the empty chain raises
`IndexError`. -/
theorem c10_witness :
    zeroHopCfg.get_remote_addr oneEntryReq = .ok (.addr 3221225993, true) ∧
    zeroHopCfg.get_remote_addr baseReq = .error .indexError :=
  ⟨c10_zero_proxies.2.1 zeroHopCfg oneEntryReq 3221225993 [] 167838211
     rfl rfl rfl (by decide),
   c10_zero_proxies.2.2 zeroHopCfg baseReq 167838211 rfl rfl rfl (by decide)⟩
